import Mathlib

/-!
Verification of the betterforces client polling/retry layer
(`frontend/src/services/api.ts`) and of the deduplication protocol the
repository documents for its backend (`docs/ARCHITECTURE.md`, spec §4.2-4.3).

The TypeScript functions `isTaskResponse`, `pollTask`, `retryWithBackoff`,
`fetchWithPolling` and `buildParams` are embedded shallowly: promise-based
asynchrony becomes explicit result values, the HTTP world becomes a function
from URLs to answers (time-indexed per retry invocation), and thrown
JavaScript values become an explicit `Thrown` type distinguishing axios
errors (which carry an optional response) from plain `Error` objects
(which carry a message).
-/

/-- A JavaScript value as far as the client code inspects it: the code reads
only the fields `status`, `task_id` and `error` of response bodies, plus the
identity of the body itself (modelled by the opaque `payload` string of an
object and by the other constructors). Fields are `Option String`: `none`
models an absent field, `some s` a present string field. -/
inductive JsBody where
  | null
  | str (s : String)
  | obj (status : Option String) (taskId : Option String) (error : Option String)
      (payload : String)
deriving DecidableEq

/-- The `error` field read by `taskError.error`: `undefined` on non-objects. -/
def JsBody.errorField : JsBody → Option String
  | .obj _ _ e _ => e
  | _ => none

/-- A thrown JavaScript value: an axios error (with optional response, a
status/body pair), for which `axios.isAxiosError` is true, or a plain
`Error` with a message. -/
inductive Thrown where
  | axios (response : Option (Nat × JsBody))
  | js (msg : String)
deriving DecidableEq

/-- The result of an async function: resolved value or thrown error. -/
inductive Outcome (α : Type) where
  | ok (v : α)
  | thrown (e : Thrown)
deriving DecidableEq

/-- One answer of `apiClient.get` on the task-status endpoint: a resolved
response (axios resolves 2xx statuses) with status and body, or a rejection. -/
inductive PollResponse where
  | res (status : Nat) (body : JsBody)
  | err (e : Thrown)
deriving DecidableEq

/-- JavaScript `x || d` on an optional string field: `undefined` and the
empty string are falsy. -/
def jsOrString (x : Option String) (d : String) : String :=
  match x with
  | some s => if s = "" then d else s
  | none => d

/-- Message of the error thrown when the polling budget is exhausted
(api.ts line 65). -/
def pollTimeoutMsg : String := "Polling timeout: Task took too long to complete"

/-- One iteration of the `pollTask` loop body (api.ts lines 45-62), classified:
`done o` means the loop exits with outcome `o` (return or throw), `again b`
means the loop continues, with `b = true` exactly when the 202 branch updated
the backoff delay. -/
inductive StepRes where
  | done (o : Outcome JsBody)
  | again (updated : Bool)
deriving DecidableEq

/-- Classification of the `pollTask` loop body on one response: status 200
returns the body; status 202 continues with an updated delay; any other
resolved status falls through the loop without touching the delay; a thrown
axios error whose response status is 500 is converted to a plain error built
from the body's `error` field (`taskError.error || 'Task failed'`); any other
thrown value is rethrown. -/
def pollClassify (r : PollResponse) : StepRes :=
  match r with
  | .res status body =>
      if status = 200 then .done (.ok body)
      else if status = 202 then .again true
      else .again false
  | .err (.axios (some (status, body))) =>
      if status = 500 then
        .done (.thrown (.js (jsOrString body.errorField "Task failed")))
      else .done (.thrown (.axios (some (status, body))))
  | .err (.axios none) => .done (.thrown (.axios none))
  | .err (.js m) => .done (.thrown (.js m))

/-- The observable run of `pollTask`: its result, the list of waits performed
(the `setTimeout` durations in milliseconds, in order), and the number of
status requests issued. -/
structure PollRun where
  result : Outcome JsBody
  waits : List Nat
  attempts : Nat
deriving DecidableEq

/-- The `pollTask` while-loop (api.ts lines 38-63). `fuel` is the remaining
attempt budget (`maxAttempts - attempt`), `attempt` the number of attempts
already made, `delay` the current backoff value, and `waits` the waits
performed so far. Before every attempt but the first the loop sleeps `delay`;
on a 202 the new delay is `min (delay * 1.5) 10000`, written `delay * 3 / 2`
(exact for every delay value reachable from 2000). -/
def pollTaskAux (rs : Nat → PollResponse) :
    Nat → Nat → Nat → List Nat → PollRun
  | 0, attempt, _, waits => ⟨.thrown (.js pollTimeoutMsg), waits, attempt⟩
  | fuel + 1, attempt, delay, waits =>
      let waits2 := if 1 ≤ attempt then waits ++ [delay] else waits
      match pollClassify (rs attempt) with
      | .done o => ⟨o, waits2, attempt + 1⟩
      | .again true =>
          pollTaskAux rs fuel (attempt + 1) (min (delay * 3 / 2) 10000) waits2
      | .again false => pollTaskAux rs fuel (attempt + 1) delay waits2

/-- `pollTask` (api.ts lines 34-66) with its only call site's arguments:
`maxAttempts = 30` and initial delay 2000 ms. `rs n` is the answer of the
`n`-th GET of `/tasks/taskId` (0-based). -/
def pollTask (rs : Nat → PollResponse) : PollRun :=
  pollTaskAux rs 30 0 2000 []

/-- A response counts as a still-processing poll when it resolved with
HTTP status 202. -/
def is202 : PollResponse → Bool
  | .res s _ => s = 202
  | _ => false

/-- `isTaskResponse` (api.ts lines 24-32): the body is a non-null object whose
`status` field equals the string "processing" and which has a `task_id` field.
-/
def isTaskResponse : JsBody → Bool
  | .obj status taskId _ _ => status = some "processing" && taskId.isSome
  | _ => false

/-- The two freshness response headers the client reads:
`x-data-stale` and `x-data-age`. `none` models an absent header. -/
structure HttpHeaders where
  xDataStale : Option String
  xDataAge : Option String
deriving DecidableEq

/-- One answer of `apiClient.get` on a data endpoint: a resolved response
(status, body, headers) or a rejection. -/
inductive HttpAnswer where
  | res (status : Nat) (body : JsBody) (headers : HttpHeaders)
  | err (e : Thrown)
deriving DecidableEq

/-- A JavaScript number as produced by `parseInt`: an integer or NaN. -/
inductive JsNum where
  | nan
  | int (i : Int)
deriving DecidableEq

/-- Numeric value of a list of decimal digit characters. -/
def digitsVal (cs : List Char) : Nat :=
  cs.foldl (fun a c => a * 10 + (c.toNat - 48)) 0

/-- JavaScript `parseInt(s, 10)`: skip leading whitespace, read an optional
sign and then the longest run of leading decimal digits; NaN when that run is
empty. -/
def jsParseInt (s : String) : JsNum :=
  match s.data.dropWhile (fun c => c = ' ' || c = '\t' || c = '\n' || c = '\r') with
  | '-' :: rest =>
      if (rest.takeWhile Char.isDigit).isEmpty then .nan
      else .int (-(digitsVal (rest.takeWhile Char.isDigit) : Int))
  | '+' :: rest =>
      if (rest.takeWhile Char.isDigit).isEmpty then .nan
      else .int (digitsVal (rest.takeWhile Char.isDigit))
  | cs =>
      if (cs.takeWhile Char.isDigit).isEmpty then .nan
      else .int (digitsVal (cs.takeWhile Char.isDigit))

/-- `DataMetadata` as the client builds it: `isStale` is a boolean,
`dataAge` a number or `undefined` (`none`). -/
structure DataMetadata where
  isStale : Bool
  dataAge : Option JsNum
deriving DecidableEq

/-- Metadata extraction from response headers (api.ts lines 116-121 and
126-131): `isStale` is strict equality of the `x-data-stale` header with
"true"; `dataAge` is `parseInt` of the `x-data-age` header when that header is
truthy (present and non-empty), `undefined` otherwise. -/
def mkMetadata (h : HttpHeaders) : DataMetadata where
  isStale := h.xDataStale = some "true"
  dataAge :=
    match h.xDataAge with
    | some v => if v = "" then none else some (jsParseInt v)
    | none => none

/-- Resolved value of `fetchWithPolling`: the data body and its metadata. -/
structure FetchResult where
  data : JsBody
  metadata : DataMetadata
deriving DecidableEq

/-- Query string built by `new URLSearchParams(params).toString()` on the
parameter records this client builds (keys and values made of letters, digits
and underscores, which URLSearchParams leaves unescaped). -/
def buildQueryString (params : List (String × String)) : String :=
  String.intercalate "&" (params.map (fun p => p.1 ++ "=" ++ p.2))

/-- The URL requested by `fetchWithPolling` (api.ts lines 104-106): the
endpoint, with `?` and the query string appended when the latter is
non-empty. -/
def requestUrl (endpoint : String) (params : List (String × String)) : String :=
  if buildQueryString params = "" then endpoint
  else endpoint ++ "?" ++ buildQueryString params

/-- The catch block of `fetchWithPolling` (api.ts lines 134-149): an axios
error with response status 404 becomes the not-found error, 429 is rethrown
unchanged, 503 becomes the unavailable error, any other axios error becomes
the generic load-failure error; a non-axios thrown value is rethrown. -/
def mapCaughtError : Thrown → Thrown
  | .axios (some (status, body)) =>
      if status = 404 then .js "User not found on Codeforces"
      else if status = 429 then .axios (some (status, body))
      else if status = 503 then
        .js "Service temporarily unavailable. Please try again later."
      else .js "Failed to load data. Please check the handle and try again."
  | .axios none => .js "Failed to load data. Please check the handle and try again."
  | .js m => .js m

/-- One run of the async closure passed to `retryWithBackoff` by
`fetchWithPolling`: its outcome and the list of data-endpoint URLs it
requested, in order (task-status requests are accounted inside `pollTask`). -/
structure AttemptRun where
  result : Outcome FetchResult
  urls : List String
deriving DecidableEq

/-- The body of `fetchWithPolling`'s closure (api.ts lines 103-149) for one
invocation. `get` answers GETs of data URLs, `poll` answers the successive
task-status GETs. A 202 response whose body passes `isTaskResponse` triggers
`pollTask`; when it resolves, the bare `endpoint` (without query parameters)
is fetched again and its body and headers are returned. Any other resolved
response is returned directly with its own headers. Everything thrown inside
the try block, including everything `pollTask` throws, passes through the
catch block (`mapCaughtError`). -/
def fetchAttempt (endpoint : String) (params : List (String × String))
    (get : String → HttpAnswer) (poll : Nat → PollResponse) : AttemptRun :=
  match get (requestUrl endpoint params) with
  | .err e => ⟨.thrown (mapCaughtError e), [requestUrl endpoint params]⟩
  | .res status body headers =>
      if status = 202 && isTaskResponse body then
        match (pollTask poll).result with
        | .thrown e => ⟨.thrown (mapCaughtError e), [requestUrl endpoint params]⟩
        | .ok _ =>
            match get endpoint with
            | .err e =>
                ⟨.thrown (mapCaughtError e), [requestUrl endpoint params, endpoint]⟩
            | .res _ body2 headers2 =>
                ⟨.ok ⟨body2, mkMetadata headers2⟩,
                  [requestUrl endpoint params, endpoint]⟩
      else ⟨.ok ⟨body, mkMetadata headers⟩, [requestUrl endpoint params]⟩

/-- The 429 test of `retryWithBackoff` (api.ts line 79): an axios error whose
response status is 429. -/
def is429 : Thrown → Bool
  | .axios (some (status, _)) => status = 429
  | _ => false

/-- The observable run of `retryWithBackoff`: its outcome, the number of times
it invoked the wrapped function, and the backoff delays it slept, in order. -/
structure RetryRun (α : Type) where
  result : Outcome α
  invocations : Nat
  delays : List Nat

/-- The `retryWithBackoff` for-loop (api.ts lines 75-93). `fn k` is the outcome
of the `k`-th invocation of the wrapped function, `fuel = maxRetries - attempt`.
A 429 failure with retries left sleeps `initialDelay * 2 ^ attempt` and
continues; any other failure, and a 429 on the last allowed attempt, rethrows
the caught error itself (the constructed overload-message `lastError` and the
final `throw lastError` line are unreachable). -/
def retryAux (fn : Nat → Outcome α) (initialDelay : Nat) :
    Nat → Nat → List Nat → RetryRun α
  | 0, attempt, delays =>
      match fn attempt with
      | .ok v => ⟨.ok v, attempt + 1, delays⟩
      | .thrown e => ⟨.thrown e, attempt + 1, delays⟩
  | fuel + 1, attempt, delays =>
      match fn attempt with
      | .ok v => ⟨.ok v, attempt + 1, delays⟩
      | .thrown e =>
          if is429 e then
            retryAux fn initialDelay fuel (attempt + 1)
              (delays ++ [initialDelay * 2 ^ attempt])
          else ⟨.thrown e, attempt + 1, delays⟩

/-- `retryWithBackoff` (api.ts lines 68-96) at its only call site's arguments:
`maxRetries = 3`, `initialDelay = 2000`. -/
def retryWithBackoff (fn : Nat → Outcome α) : RetryRun α :=
  retryAux fn 2000 3 0 []

/-- The backoff delays `retryAux` sleeps when every invocation from `attempt`
onwards keeps failing with 429, for `fuel` remaining retries:
`d * 2 ^ attempt, d * 2 ^ (attempt + 1), ...`. -/
def retryDelays (d : Nat) : Nat → Nat → List Nat
  | _, 0 => []
  | attempt, fuel + 1 => d * 2 ^ attempt :: retryDelays d (attempt + 1) fuel

/-- The HTTP world one invocation of the wrapped closure runs against: answers
for data-endpoint GETs and for successive task-status GETs. Indexing worlds by
the invocation number models server state changing between retries. -/
structure World where
  get : String → HttpAnswer
  poll : Nat → PollResponse

/-- `fetchWithPolling` (api.ts lines 98-151): `retryWithBackoff` applied to
`fetchAttempt`, invocation `k` running against world `w k`. -/
def fetchWithPolling (endpoint : String) (params : List (String × String))
    (w : Nat → World) : RetryRun FetchResult :=
  retryWithBackoff (fun k => (fetchAttempt endpoint params (w k).get (w k).poll).result)

/-- The `TimePeriod` union type (types file): six period literals. -/
inductive TimePeriod where
  | day
  | week
  | month
  | half_year
  | year
  | all_time
deriving DecidableEq

/-- The string value sent for each period. -/
def TimePeriod.toParamString : TimePeriod → String
  | .day => "day"
  | .week => "week"
  | .month => "month"
  | .half_year => "half_year"
  | .year => "year"
  | .all_time => "all_time"

/-- `buildParams` (api.ts lines 153-158): `prefer_fresh=true` when requested,
then `period` unless it is `all_time`, in insertion order. -/
def buildParams (preferFresh : Bool) (period : TimePeriod) : List (String × String) :=
  (if preferFresh then [("prefer_fresh", "true")] else []) ++
    (if period ≠ TimePeriod.all_time then [("period", period.toParamString)] else [])

/-- Modelled from the spec: the backend RequestCoordinator, Deduplicator and
task queue (spec §3-§4.3, docs/ARCHITECTURE.md "Three levels of
deduplication") are not present under src/, only documented. State of the
system for one key: the live DedupLock (`key → taskId`, at most one), the
Tasks created for the key so far, and the number of QueueJobs enqueued. -/
structure CoordState where
  lock : Option String
  tasksCreated : List String
  jobsEnqueued : Nat
deriving DecidableEq

/-- Modelled from the spec: state before any request, with no cache entry,
no live lock, no task and an empty queue for the key. -/
def initialCoordState : CoordState := ⟨none, [], 0⟩

/-- Modelled from the spec: one ABSENT-path request (spec §4.3) executing the
atomic `Deduplicator.tryAcquire` (spec §4.2, check-and-set). If a live lock
exists the request discovers the existing taskId and returns a handle to it
with no other effect; otherwise it installs the lock for its own fresh
`reqTaskId`, creates the Task and enqueues one QueueJob, returning a handle to
its own task. Returns the handle's taskId and the next state. -/
def absentRequest (reqTaskId : String) (s : CoordState) : String × CoordState :=
  match s.lock with
  | some t => (t, s)
  | none =>
      (reqTaskId, ⟨some reqTaskId, s.tasksCreated ++ [reqTaskId], s.jobsEnqueued + 1⟩)

/-- Modelled from the spec: N concurrent ABSENT-path requests for the same
key. Because `tryAcquire` is required to be atomic (spec §4.2), any concurrent
execution is equivalent to some serialization of the atomic steps; `ids` is
that serialization, each entry the task id a request would create if it won.
Returns the handles received, in order, and the final state. -/
def processRequests : List String → CoordState → List String × CoordState
  | [], s => ([], s)
  | i :: rest, s =>
      ((absentRequest i s).1 :: (processRequests rest (absentRequest i s).2).1,
        (processRequests rest (absentRequest i s).2).2)

/-- A task-status stream that reports "processing" (202) forever. -/
def processingForever : Nat → PollResponse := fun _ => .res 202 .null

/-- Task-status stream: five "processing" (202) answers, then completion. -/
def c2Responses : Nat → PollResponse :=
  fun n => if n < 5 then .res 202 .null else .res 200 (.str "payload")

/-- A failed-task body per the documented contract:
`{status: "failed", error: "boom"}`. -/
def c4FailBody : JsBody := .obj (some "failed") none (some "boom") ""

/-- A failed-task body whose `error` field is present but empty. -/
def c4EmptyErrBody : JsBody := .obj (some "failed") none (some "") ""

/-- Task-status stream that always fails with HTTP 503 carrying the failure
contract body. -/
def c4Responses503 : Nat → PollResponse :=
  fun _ => .err (.axios (some (503, c4FailBody)))

/-- Task-status stream: one 202, then HTTP 500 carrying the failure body. -/
def c4Responses500 : Nat → PollResponse :=
  fun n => if n = 0 then .res 202 .null else .err (.axios (some (500, c4FailBody)))

/-- Task-status stream failing with HTTP 500 and an empty `error` field. -/
def c4Responses500empty : Nat → PollResponse :=
  fun _ => .err (.axios (some (500, c4EmptyErrBody)))

/-- A 202 body that satisfies `isTaskResponse`. -/
def taskBody : JsBody := .obj (some "processing") (some "t1") none ""

/-- Headers of a fresh response: `x-data-stale: false`, `x-data-age: 0`. -/
def freshHeaders : HttpHeaders := ⟨some "false", some "0"⟩

/-- Headers with `x-data-stale: true` and a present but empty `x-data-age`. -/
def staleEmptyAgeHeaders : HttpHeaders := ⟨some "true", some ""⟩

/-- A world in which every data request fails with HTTP 429. -/
def rateLimitedWorld : Nat → World :=
  fun _ => ⟨fun _ => .err (.axios (some (429, .null))), fun _ => .res 202 .null⟩

/-- A world in which every data request fails with HTTP 404. -/
def notFoundWorld : Nat → World :=
  fun _ => ⟨fun _ => .err (.axios (some (404, .null))), fun _ => .res 202 .null⟩

/-- Data answers for the 202/polling path: the parameterized URL answers 202
with a task body; every other URL (in particular the bare endpoint) answers
200 with a payload and fresh headers. -/
def taskThenDataGet : String → HttpAnswer :=
  fun u =>
    if u = "/data?prefer_fresh=true" then .res 202 taskBody ⟨none, none⟩
    else .res 200 (.str "x") freshHeaders

/-- A world taking the 202/polling path and completing on the first poll. -/
def taskPathWorld : Nat → World :=
  fun _ => ⟨taskThenDataGet, fun _ => .res 200 (.str "done")⟩

/-- A world in which every data request resolves 200 with fresh headers. -/
def direct200World : Nat → World :=
  fun _ => ⟨fun _ => .res 200 (.str "x") freshHeaders, fun _ => .res 202 .null⟩

/-- A world answering 202 with a body that fails `isTaskResponse`. -/
def nonTask202World : Nat → World :=
  fun _ => ⟨fun _ => .res 202 (.str "weird") freshHeaders, fun _ => .res 202 .null⟩

/-- A world answering 200 with a stale header and an empty age header. -/
def emptyAgeWorld : Nat → World :=
  fun _ => ⟨fun _ => .res 200 (.str "p") staleEmptyAgeHeaders, fun _ => .res 202 .null⟩

/-- A task-status answer whose converted error message would collide with the
client's own polling-timeout message: a 500 whose embedded `error` equals that
message, or a rethrown plain error with that message. -/
def fakesTimeout : PollResponse → Bool
  | .err (.js m) => m = pollTimeoutMsg
  | .err (.axios (some (status, body))) =>
      status = 500 && body.errorField = some pollTimeoutMsg
  | _ => false

theorem pollTaskAux_attempts_le (rs : Nat → PollResponse) :
    ∀ fuel attempt delay waits,
      (pollTaskAux rs fuel attempt delay waits).attempts ≤ attempt + fuel := by
  intro fuel
  induction fuel with
  | zero => intro attempt delay waits; simp [pollTaskAux]
  | succ fuel ih =>
      intro attempt delay waits
      rcases h : pollClassify (rs attempt) with o | b
      · simp only [pollTaskAux, h]
        omega
      · cases b
        · simp only [pollTaskAux, h]
          exact le_trans (ih (attempt + 1) _ _) (by omega)
        · simp only [pollTaskAux, h]
          exact le_trans (ih (attempt + 1) _ _) (by omega)

theorem pollClassify_of_is202 (r : PollResponse) (h : is202 r = true) :
    pollClassify r = .again true := by
  cases r with
  | res s b =>
      have hs : s = 202 := by simpa [is202] using h
      subst hs
      simp [pollClassify]
  | err e => simp [is202] at h

theorem pollClassify_no_fake (r : PollResponse) (h : fakesTimeout r = false) :
    pollClassify r ≠ .done (.thrown (.js pollTimeoutMsg)) := by
  cases r with
  | res s b =>
      by_cases h200 : s = 200 <;> by_cases h202 : s = 202 <;>
        simp [pollClassify, h200, h202]
  | err e =>
      cases e with
      | js m =>
          have hm : m ≠ pollTimeoutMsg := by simpa [fakesTimeout] using h
          simp [pollClassify, hm]
      | axios resp =>
          cases resp with
          | none => simp [pollClassify]
          | some p =>
              obtain ⟨st, body⟩ := p
              by_cases h500 : st = 500
              · subst h500
                have hb : body.errorField ≠ some pollTimeoutMsg := by
                  simpa [fakesTimeout] using h
                simp only [pollClassify, if_pos rfl]
                intro hcontra
                have hmsg : jsOrString body.errorField "Task failed" = pollTimeoutMsg := by
                  injection hcontra with h1
                  injection h1 with h2
                  injection h2
                rcases hbe : body.errorField with _ | s
                · rw [hbe] at hmsg
                  simp [jsOrString, pollTimeoutMsg] at hmsg
                · rw [hbe] at hmsg
                  by_cases hs : s = ""
                  · subst hs
                    simp [jsOrString, pollTimeoutMsg] at hmsg
                  · simp [jsOrString, hs] at hmsg
                    exact hb (hbe ▸ hmsg ▸ rfl)
              · simp [pollClassify, h500]

theorem pollTaskAux_timeout_attempts (rs : Nat → PollResponse) :
    ∀ fuel attempt delay waits,
      (∀ i, i < fuel → fakesTimeout (rs (attempt + i)) = false) →
      (pollTaskAux rs fuel attempt delay waits).result = .thrown (.js pollTimeoutMsg) →
      (pollTaskAux rs fuel attempt delay waits).attempts = attempt + fuel := by
  intro fuel
  induction fuel with
  | zero => intro attempt delay waits _ _; simp [pollTaskAux]
  | succ fuel ih =>
      intro attempt delay waits hfake hres
      have hshift : ∀ i, i < fuel → fakesTimeout (rs (attempt + 1 + i)) = false := by
        intro i hi
        have := hfake (i + 1) (by omega)
        rwa [show attempt + (i + 1) = attempt + 1 + i by omega] at this
      rcases h : pollClassify (rs attempt) with o | b
      · exfalso
        have h0 := hfake 0 (by omega)
        rw [Nat.add_zero] at h0
        have hne := pollClassify_no_fake (rs attempt) h0
        simp only [pollTaskAux, h] at hres
        exact hne (by rw [h, hres])
      · cases b
        · simp only [pollTaskAux, h] at hres ⊢
          have := ih (attempt + 1) delay
            (if 1 ≤ attempt then waits ++ [delay] else waits) hshift hres
          omega
        · simp only [pollTaskAux, h] at hres ⊢
          have := ih (attempt + 1) (min (delay * 3 / 2) 10000)
            (if 1 ≤ attempt then waits ++ [delay] else waits) hshift hres
          omega

theorem pollTaskAux_all202 (rs : Nat → PollResponse) :
    ∀ fuel attempt delay waits,
      (∀ i, i < fuel → is202 (rs (attempt + i)) = true) →
      (pollTaskAux rs fuel attempt delay waits).result = .thrown (.js pollTimeoutMsg) ∧
      (pollTaskAux rs fuel attempt delay waits).attempts = attempt + fuel := by
  intro fuel
  induction fuel with
  | zero => intro attempt delay waits _; simp [pollTaskAux]
  | succ fuel ih =>
      intro attempt delay waits h202
      have h0 := h202 0 (by omega)
      rw [Nat.add_zero] at h0
      have hc := pollClassify_of_is202 (rs attempt) h0
      have hshift : ∀ i, i < fuel → is202 (rs (attempt + 1 + i)) = true := by
        intro i hi
        have := h202 (i + 1) (by omega)
        rwa [show attempt + (i + 1) = attempt + 1 + i by omega] at this
      simp only [pollTaskAux, hc]
      have := ih (attempt + 1) (min (delay * 3 / 2) 10000)
        (if 1 ≤ attempt then waits ++ [delay] else waits) hshift
      exact ⟨this.1, by omega⟩

theorem pollTaskAux_skip202 (rs : Nat → PollResponse) :
    ∀ k fuel attempt delay waits, k ≤ fuel →
      (∀ i, i < k → is202 (rs (attempt + i)) = true) →
      ∃ d2 w2, pollTaskAux rs fuel attempt delay waits
        = pollTaskAux rs (fuel - k) (attempt + k) d2 w2 := by
  intro k
  induction k with
  | zero =>
      intro fuel attempt delay waits _ _
      exact ⟨delay, waits, by simp⟩
  | succ k ih =>
      intro fuel attempt delay waits hk h202
      cases fuel with
      | zero => omega
      | succ fuel =>
          have h0 := h202 0 (by omega)
          rw [Nat.add_zero] at h0
          have hc := pollClassify_of_is202 (rs attempt) h0
          have hshift : ∀ i, i < k → is202 (rs (attempt + 1 + i)) = true := by
            intro i hi
            have := h202 (i + 1) (by omega)
            rwa [show attempt + (i + 1) = attempt + 1 + i by omega] at this
          obtain ⟨d2, w2, heq⟩ := ih fuel (attempt + 1) (min (delay * 3 / 2) 10000)
            (if 1 ≤ attempt then waits ++ [delay] else waits) (by omega) hshift
          refine ⟨d2, w2, ?_⟩
          simp only [pollTaskAux, hc]
          rw [heq, Nat.succ_sub_succ]
          congr 1
          omega

/-- Claim C2 (code bug, actual behavior at the failing input): under five
consecutive still-processing (202) polls, `pollTask` issues the first status
check with no wait, but the waits before polls 2-6 are
[3000, 4500, 6750, 10000, 10000] milliseconds, not the
[2000, 3000, 4500, 6750, 10000] the claim and the code's own backoff comments
state: the delay is multiplied by 1.5 before its first use, so the 2000 ms
initial wait never occurs. -/
theorem c2_actual_wait_sequence :
    (pollTask c2Responses).waits = [3000, 4500, 6750, 10000, 10000]
    ∧ (pollTask c2Responses).waits ≠ [2000, 3000, 4500, 6750, 10000]
    ∧ (pollTask c2Responses).attempts = 6
    ∧ (pollTask c2Responses).result = .ok (.str "payload") := by
  decide

/-- Claim C3: `pollTask` makes at most 30 status-poll attempts; when every
attempt finds the task still processing (202) it throws the polling-timeout
failure after the 30th attempt; and it throws the polling-timeout failure only
with the attempt budget exhausted (the hypothesis of the second part only
rules out server answers whose converted message collides with the client's
own timeout message, so that "that timeout failure" is well defined). -/
theorem c3_attempt_budget (rs : Nat → PollResponse) :
    ((∀ i, i < 30 → is202 (rs i) = true) →
      (pollTask rs).result = .thrown (.js pollTimeoutMsg)
      ∧ (pollTask rs).attempts = 30)
    ∧ ((∀ i, i < 30 → fakesTimeout (rs i) = false) →
      (pollTask rs).result = .thrown (.js pollTimeoutMsg) →
      (pollTask rs).attempts = 30)
    ∧ (pollTask rs).attempts ≤ 30 := by
  refine ⟨?_, ?_, ?_⟩
  · intro h
    have := pollTaskAux_all202 rs 30 0 2000 [] (by simpa using h)
    simpa [pollTask] using this
  · intro h hres
    have := pollTaskAux_timeout_attempts rs 30 0 2000 [] (by simpa using h) hres
    simpa [pollTask] using this
  · simpa [pollTask] using pollTaskAux_attempts_le rs 30 0 2000 []

/-- Claim C3 witness: on the always-processing stream, `pollTask` times out
with exactly 30 attempts. -/
theorem c3_attempt_budget_witness :
    (pollTask processingForever).result = .thrown (.js pollTimeoutMsg)
    ∧ (pollTask processingForever).attempts = 30 :=
  (c3_attempt_budget processingForever).1 (fun _ _ => rfl)

/-- Claim C4 counterexample: a status poll failing with HTTP 503 and the
documented failure body `{status: "failed", error: "boom"}` does not make
`pollTask` throw a terminal error carrying "boom"; the raw error is rethrown
instead, because only status 500 is converted. Furthermore a 500 whose `error`
field is present but empty yields the generic message, so the generic fallback
is not used only when the body lacks an error field. -/
theorem c4_counterexample :
    (pollTask c4Responses503).result ≠ .thrown (.js "boom")
    ∧ (pollTask c4Responses503).result = .thrown (.axios (some (503, c4FailBody)))
    ∧ c4EmptyErrBody.errorField = some ""
    ∧ (pollTask c4Responses500empty).result = .thrown (.js "Task failed") := by
  decide

/-- Claim C4 as amended: whenever a status poll fails with an HTTP error
response after `k` still-processing polls (within the attempt budget),
`pollTask` stops polling at that attempt; if the status is exactly 500 it
throws a terminal plain error carrying the body's embedded `error` message,
falling back to the generic "Task failed" when that field is absent or empty;
for any other status the original error is rethrown unchanged. -/
theorem c4_500_terminal (rs : Nat → PollResponse) (k s : Nat) (body : JsBody)
    (hk : k < 30) (h202 : ∀ i, i < k → is202 (rs i) = true)
    (herr : rs k = .err (.axios (some (s, body)))) :
    (pollTask rs).attempts = k + 1
    ∧ (pollTask rs).result =
        (if s = 500 then .thrown (.js (jsOrString body.errorField "Task failed"))
          else .thrown (.axios (some (s, body)))) := by
  obtain ⟨d2, w2, heq⟩ := pollTaskAux_skip202 rs k 30 0 2000 [] (by omega)
    (by simpa using h202)
  have hfuel : ∃ m, 30 - k = m + 1 := ⟨30 - k - 1, by omega⟩
  obtain ⟨m, hm⟩ := hfuel
  rw [pollTask, heq, hm, Nat.zero_add]
  by_cases h500 : s = 500
  · subst h500
    have hc : pollClassify (rs k) = .done (.thrown (.js (jsOrString body.errorField "Task failed"))) := by
      rw [herr]; simp [pollClassify]
    simp [pollTaskAux, hc]
  · have hc : pollClassify (rs k) = .done (.thrown (.axios (some (s, body)))) := by
      rw [herr]; simp [pollClassify, h500]
    simp [pollTaskAux, hc, h500]

/-- Claim C4 witness: one processing poll, then a 500 with embedded error
"boom": `pollTask` stops after the second attempt and throws "boom". -/
theorem c4_500_terminal_witness :
    (pollTask c4Responses500).attempts = 2
    ∧ (pollTask c4Responses500).result = .thrown (.js "boom") := by
  have h := c4_500_terminal c4Responses500 1 500 c4FailBody (by omega)
    (by intro i hi; obtain rfl := Nat.lt_one_iff.mp hi; rfl) rfl
  refine ⟨h.1, ?_⟩
  rw [h.2]
  decide

theorem mapCaughtError_429 (b : JsBody) :
    mapCaughtError (.axios (some (429, b))) = .axios (some (429, b)) := by
  simp [mapCaughtError]

theorem is429_mapCaught_ne (s : Nat) (body : JsBody) (hs : s ≠ 429) :
    is429 (mapCaughtError (.axios (some (s, body)))) = false := by
  by_cases h4 : s = 404
  · simp [mapCaughtError, h4, is429]
  · by_cases h5 : s = 503
    · simp [mapCaughtError, h4, h5, hs, is429]
    · simp [mapCaughtError, h4, h5, hs, is429]

theorem retryAux_thrown_not429 {α : Type} (fn : Nat → Outcome α) (d : Nat)
    (fuel attempt : Nat) (delays : List Nat) (e : Thrown)
    (hfn : fn attempt = .thrown e) (h : is429 e = false) :
    retryAux fn d fuel attempt delays = ⟨.thrown e, attempt + 1, delays⟩ := by
  cases fuel <;> simp [retryAux, hfn, h]

theorem retryAux_ok {α : Type} (fn : Nat → Outcome α) (d : Nat)
    (fuel attempt : Nat) (delays : List Nat) (v : α) (hfn : fn attempt = .ok v) :
    retryAux fn d fuel attempt delays = ⟨.ok v, attempt + 1, delays⟩ := by
  cases fuel <;> simp [retryAux, hfn]

theorem retryAux_all429 {α : Type} (fn : Nat → Outcome α) (es : Nat → Thrown)
    (hfn : ∀ k, fn k = .thrown (es k)) (h429 : ∀ k, is429 (es k) = true) (d : Nat) :
    ∀ fuel attempt delays, retryAux fn d fuel attempt delays
      = ⟨.thrown (es (attempt + fuel)), attempt + fuel + 1,
          delays ++ retryDelays d attempt fuel⟩ := by
  intro fuel
  induction fuel with
  | zero => intro attempt delays; simp [retryAux, hfn attempt, retryDelays]
  | succ fuel ih =>
      intro attempt delays
      simp only [retryAux, hfn attempt, h429 attempt, if_pos]
      rw [ih (attempt + 1) (delays ++ [d * 2 ^ attempt])]
      rw [show attempt + 1 + fuel = attempt + (fuel + 1) by omega]
      simp [retryDelays, List.append_assoc]

/-- Claim C5 counterexample: when every invocation fails with HTTP 429,
`fetchWithPolling` does retry with delays [2000, 4000, 8000] and gives up
after the fourth invocation, but what reaches the caller is the raw 429 axios
error, not the constructed overload-message error "Service is temporarily
overloaded. Please wait a moment and try again." (that `lastError` and the
final `throw lastError` line of `retryWithBackoff` are unreachable). -/
theorem c5_counterexample :
    (fetchWithPolling "/x" [] rateLimitedWorld).result
      = .thrown (.axios (some (429, JsBody.null)))
    ∧ (fetchWithPolling "/x" [] rateLimitedWorld).result
      ≠ .thrown (.js "Service is temporarily overloaded. Please wait a moment and try again.")
    ∧ (fetchWithPolling "/x" [] rateLimitedWorld).delays = [2000, 4000, 8000]
    ∧ (fetchWithPolling "/x" [] rateLimitedWorld).invocations = 4 := by
  decide

/-- Claim C5 as amended: if a direct read call fails with HTTP 429,
`fetchWithPolling` retries it with delays 2000·2^k ms, k = 0, 1, 2, up to 3
retries; after the final failed retry it rethrows the last raw 429 error to
the caller (the constructed overload-message error is never surfaced); a
failure with any response status other than 429 is never retried — the
wrapped call is invoked exactly once and the mapped error is surfaced. -/
theorem c5_429_retries (endpoint : String) (params : List (String × String))
    (w : Nat → World) (b : Nat → JsBody) :
    ((∀ k, (w k).get (requestUrl endpoint params) = .err (.axios (some (429, b k)))) →
      (fetchWithPolling endpoint params w).result = .thrown (.axios (some (429, b 3)))
      ∧ (fetchWithPolling endpoint params w).invocations = 4
      ∧ (fetchWithPolling endpoint params w).delays = [2000, 4000, 8000])
    ∧ (∀ s body, s ≠ 429 →
        (w 0).get (requestUrl endpoint params) = .err (.axios (some (s, body))) →
        (fetchWithPolling endpoint params w).result
          = .thrown (mapCaughtError (.axios (some (s, body))))
        ∧ (fetchWithPolling endpoint params w).invocations = 1
        ∧ (fetchWithPolling endpoint params w).delays = []) := by
  have hrun : fetchWithPolling endpoint params w
      = retryAux (fun k => (fetchAttempt endpoint params (w k).get (w k).poll).result)
          2000 3 0 [] := rfl
  constructor
  · intro hget
    have hfn : ∀ k, (fetchAttempt endpoint params (w k).get (w k).poll).result
        = .thrown (.axios (some (429, b k))) := by
      intro k
      simp only [fetchAttempt, hget k, mapCaughtError_429]
    have h := retryAux_all429
      (fun k => (fetchAttempt endpoint params (w k).get (w k).poll).result)
      (fun k => .axios (some (429, b k))) hfn (fun k => by simp [is429]) 2000 3 0 []
    rw [hrun, h]
    refine ⟨rfl, rfl, ?_⟩
    show ([] ++ retryDelays 2000 0 3 : List Nat) = [2000, 4000, 8000]
    decide
  · intro s body hs hget
    have hfn : (fetchAttempt endpoint params (w 0).get (w 0).poll).result
        = .thrown (mapCaughtError (.axios (some (s, body)))) := by
      simp only [fetchAttempt, hget]
    have h := retryAux_thrown_not429
      (fun k => (fetchAttempt endpoint params (w k).get (w k).poll).result)
      2000 3 0 [] _ hfn (is429_mapCaught_ne s body hs)
    rw [hrun, h]
    exact ⟨rfl, rfl, rfl⟩

/-- Claim C5 witness: the amended theorem applied to the all-429 world (all
hypotheses discharged by evaluation) and, for the never-retried part, to the
all-404 world. -/
theorem c5_429_retries_witness :
    ((fetchWithPolling "/y" [] rateLimitedWorld).invocations = 4
      ∧ (fetchWithPolling "/y" [] rateLimitedWorld).delays = [2000, 4000, 8000])
    ∧ ((fetchWithPolling "/y" [] notFoundWorld).invocations = 1
      ∧ (fetchWithPolling "/y" [] notFoundWorld).result
          = .thrown (.js "User not found on Codeforces")) := by
  have h1 := (c5_429_retries "/y" [] rateLimitedWorld (fun _ => JsBody.null)).1
    (fun k => rfl)
  have h2 := (c5_429_retries "/y" [] notFoundWorld (fun _ => JsBody.null)).2
    404 JsBody.null (by omega) rfl
  refine ⟨⟨h1.2.1, h1.2.2⟩, h2.2.1, ?_⟩
  rw [h2.1]
  decide

theorem fetchAttempt_err_run (endpoint : String) (params : List (String × String))
    (get : String → HttpAnswer) (poll : Nat → PollResponse) (e : Thrown)
    (hget : get (requestUrl endpoint params) = .err e) :
    fetchAttempt endpoint params get poll
      = ⟨.thrown (mapCaughtError e), [requestUrl endpoint params]⟩ := by
  simp only [fetchAttempt, hget]

theorem fetchAttempt_direct_run (endpoint : String) (params : List (String × String))
    (get : String → HttpAnswer) (poll : Nat → PollResponse) (st : Nat)
    (body : JsBody) (hdr : HttpHeaders)
    (hget : get (requestUrl endpoint params) = .res st body hdr)
    (hcond : (st = 202 && isTaskResponse body) = false) :
    fetchAttempt endpoint params get poll
      = ⟨.ok ⟨body, mkMetadata hdr⟩, [requestUrl endpoint params]⟩ := by
  simp [fetchAttempt, hget, hcond]

theorem fetchAttempt_task_run (endpoint : String) (params : List (String × String))
    (get : String → HttpAnswer) (poll : Nat → PollResponse)
    (body : JsBody) (hdr : HttpHeaders) (d : JsBody) (s2 : Nat)
    (b2 : JsBody) (hdr2 : HttpHeaders)
    (hget : get (requestUrl endpoint params) = .res 202 body hdr)
    (htask : isTaskResponse body = true)
    (hpoll : (pollTask poll).result = .ok d)
    (hget2 : get endpoint = .res s2 b2 hdr2) :
    fetchAttempt endpoint params get poll
      = ⟨.ok ⟨b2, mkMetadata hdr2⟩, [requestUrl endpoint params, endpoint]⟩ := by
  simp [fetchAttempt, hget, htask, hpoll, hget2]

/-- Claim C7: a 404 from a read endpoint is terminal: `fetchWithPolling`
throws the not-found error "User not found on Codeforces", the wrapped call
is invoked exactly once with no backoff sleeps, and that single invocation
made exactly one request (the parameterized read), so the task/polling system
was never entered. -/
theorem c7_404_terminal (endpoint : String) (params : List (String × String))
    (w : Nat → World) (body : JsBody)
    (hget : (w 0).get (requestUrl endpoint params) = .err (.axios (some (404, body)))) :
    (fetchWithPolling endpoint params w).result
      = .thrown (.js "User not found on Codeforces")
    ∧ (fetchWithPolling endpoint params w).invocations = 1
    ∧ (fetchWithPolling endpoint params w).delays = []
    ∧ (fetchAttempt endpoint params (w 0).get (w 0).poll).urls
        = [requestUrl endpoint params] := by
  have hmap : mapCaughtError (.axios (some (404, body)))
      = .js "User not found on Codeforces" := by
    simp [mapCaughtError]
  have hfa := fetchAttempt_err_run endpoint params (w 0).get (w 0).poll _ hget
  have hfn : (fetchAttempt endpoint params (w 0).get (w 0).poll).result
      = .thrown (.js "User not found on Codeforces") := by
    rw [hfa, hmap]
  have hrun : fetchWithPolling endpoint params w
      = retryAux (fun k => (fetchAttempt endpoint params (w k).get (w k).poll).result)
          2000 3 0 [] := rfl
  have h := retryAux_thrown_not429
    (fun k => (fetchAttempt endpoint params (w k).get (w k).poll).result)
    2000 3 0 [] _ hfn rfl
  rw [hrun, h]
  exact ⟨rfl, rfl, rfl, by rw [hfa]⟩

/-- Claim C7 witness: the all-404 world. -/
theorem c7_404_terminal_witness :
    (fetchWithPolling "/u" [] notFoundWorld).result
      = .thrown (.js "User not found on Codeforces")
    ∧ (fetchWithPolling "/u" [] notFoundWorld).invocations = 1 :=
  have h := c7_404_terminal "/u" [] notFoundWorld JsBody.null rfl
  ⟨h.1, h.2.1⟩

/-- Claim C6: a 202 read response whose body is a task response makes
`fetchWithPolling` poll the task; once polling resolves, it issues a follow-up
fetch of the resource and returns that response's body as data together with
metadata from that response's headers (world `wA`); a 200 response is returned
directly as data, without polling and with a single request (world `wB`). -/
theorem c6_task_polling_path (endpoint : String) (params : List (String × String))
    (wA wB : Nat → World) (bodyA : JsBody) (hdrA : HttpHeaders) (d : JsBody)
    (s2 : Nat) (b2 : JsBody) (hdr2 : HttpHeaders)
    (bodyB : JsBody) (hdrB : HttpHeaders)
    (hA1 : (wA 0).get (requestUrl endpoint params) = .res 202 bodyA hdrA)
    (hA2 : isTaskResponse bodyA = true)
    (hA3 : (pollTask (wA 0).poll).result = .ok d)
    (hA4 : (wA 0).get endpoint = .res s2 b2 hdr2)
    (hB : (wB 0).get (requestUrl endpoint params) = .res 200 bodyB hdrB) :
    (fetchWithPolling endpoint params wA).result = .ok ⟨b2, mkMetadata hdr2⟩
    ∧ (fetchWithPolling endpoint params wA).invocations = 1
    ∧ (fetchAttempt endpoint params (wA 0).get (wA 0).poll).urls
        = [requestUrl endpoint params, endpoint]
    ∧ (fetchWithPolling endpoint params wB).result = .ok ⟨bodyB, mkMetadata hdrB⟩
    ∧ (fetchAttempt endpoint params (wB 0).get (wB 0).poll).urls
        = [requestUrl endpoint params] := by
  have hfaA := fetchAttempt_task_run endpoint params (wA 0).get (wA 0).poll
    bodyA hdrA d s2 b2 hdr2 hA1 hA2 hA3 hA4
  have hfaB := fetchAttempt_direct_run endpoint params (wB 0).get (wB 0).poll
    200 bodyB hdrB hB (by simp)
  have hrunA : fetchWithPolling endpoint params wA
      = retryAux (fun k => (fetchAttempt endpoint params (wA k).get (wA k).poll).result)
          2000 3 0 [] := rfl
  have hrunB : fetchWithPolling endpoint params wB
      = retryAux (fun k => (fetchAttempt endpoint params (wB k).get (wB k).poll).result)
          2000 3 0 [] := rfl
  have hfnA : (fetchAttempt endpoint params (wA 0).get (wA 0).poll).result
      = .ok ⟨b2, mkMetadata hdr2⟩ := by rw [hfaA]
  have hfnB : (fetchAttempt endpoint params (wB 0).get (wB 0).poll).result
      = .ok ⟨bodyB, mkMetadata hdrB⟩ := by rw [hfaB]
  have hA := retryAux_ok
    (fun k => (fetchAttempt endpoint params (wA k).get (wA k).poll).result)
    2000 3 0 [] _ hfnA
  have hB2 := retryAux_ok
    (fun k => (fetchAttempt endpoint params (wB k).get (wB k).poll).result)
    2000 3 0 [] _ hfnB
  rw [hrunA, hA, hrunB, hB2]
  exact ⟨rfl, rfl, by rw [hfaA], rfl, by rw [hfaB]⟩

/-- Claim C6 witness: a world taking the full 202/poll/follow-up path, and a
direct-200 world. -/
theorem c6_task_polling_path_witness :
    (fetchWithPolling "/data" [("prefer_fresh", "true")] taskPathWorld).result
      = .ok ⟨.str "x", mkMetadata freshHeaders⟩
    ∧ (fetchWithPolling "/data" [("prefer_fresh", "true")] direct200World).result
      = .ok ⟨.str "x", mkMetadata freshHeaders⟩ := by
  have h := c6_task_polling_path "/data" [("prefer_fresh", "true")]
    taskPathWorld direct200World taskBody ⟨none, none⟩ (.str "done")
    200 (.str "x") freshHeaders (.str "x") freshHeaders
    (by decide) (by decide) (by decide) (by decide) (by decide)
  exact ⟨h.1, h.2.2.2.1⟩

/-- Claim C10: a 202 response whose body does not satisfy the task shape is
returned directly as data, with metadata parsed from that same response's
headers, with no polling and a single request. -/
theorem c10_non_task_202 (endpoint : String) (params : List (String × String))
    (w : Nat → World) (body : JsBody) (hdr : HttpHeaders)
    (hget : (w 0).get (requestUrl endpoint params) = .res 202 body hdr)
    (htask : isTaskResponse body = false) :
    (fetchWithPolling endpoint params w).result = .ok ⟨body, mkMetadata hdr⟩
    ∧ (fetchWithPolling endpoint params w).invocations = 1
    ∧ (fetchAttempt endpoint params (w 0).get (w 0).poll).urls
        = [requestUrl endpoint params] := by
  have hfa := fetchAttempt_direct_run endpoint params (w 0).get (w 0).poll
    202 body hdr hget (by simp [htask])
  have hrun : fetchWithPolling endpoint params w
      = retryAux (fun k => (fetchAttempt endpoint params (w k).get (w k).poll).result)
          2000 3 0 [] := rfl
  have hfn : (fetchAttempt endpoint params (w 0).get (w 0).poll).result
      = .ok ⟨body, mkMetadata hdr⟩ := by rw [hfa]
  have h := retryAux_ok
    (fun k => (fetchAttempt endpoint params (w k).get (w k).poll).result)
    2000 3 0 [] _ hfn
  rw [hrun, h]
  exact ⟨rfl, rfl, by rw [hfa]⟩

/-- Claim C10 witness: a 202 whose body is a plain string. -/
theorem c10_non_task_202_witness :
    (fetchWithPolling "/x" [] nonTask202World).result
      = .ok ⟨.str "weird", mkMetadata freshHeaders⟩
    ∧ (fetchWithPolling "/x" [] nonTask202World).invocations = 1 :=
  have h := c10_non_task_202 "/x" [] nonTask202World (.str "weird") freshHeaders
    rfl rfl
  ⟨h.1, h.2.1⟩

theorem buildParams_qs_ne (pf : Bool) (period : TimePeriod)
    (h : buildParams pf period ≠ []) :
    buildQueryString (buildParams pf period) ≠ "" := by
  cases pf <;> cases period <;> revert h <;> decide

theorem append_query_ne (a b : String) : a ++ "?" ++ b ≠ a := by
  intro h
  have hl := congrArg String.length h
  rw [String.length_append, String.length_append] at hl
  have h1 : ("?" : String).length = 1 := rfl
  rw [h1] at hl
  omega

/-- Claim C9: with non-empty query parameters from `buildParams`, on the
202/polling path the first request goes to the parameterized URL but the
follow-up data request issued after the task completes goes to the bare
endpoint, a different URL without those parameters, and the returned payload
is the bare endpoint's body. -/
theorem c9_followup_drops_params (endpoint : String) (pf : Bool)
    (period : TimePeriod) (w : Nat → World) (body : JsBody) (hdr : HttpHeaders)
    (d : JsBody) (s2 : Nat) (b2 : JsBody) (hdr2 : HttpHeaders)
    (hne : buildParams pf period ≠ [])
    (hget : (w 0).get (requestUrl endpoint (buildParams pf period))
      = .res 202 body hdr)
    (htask : isTaskResponse body = true)
    (hpoll : (pollTask (w 0).poll).result = .ok d)
    (hget2 : (w 0).get endpoint = .res s2 b2 hdr2) :
    (fetchAttempt endpoint (buildParams pf period) (w 0).get (w 0).poll).urls
      = [endpoint ++ "?" ++ buildQueryString (buildParams pf period), endpoint]
    ∧ endpoint ++ "?" ++ buildQueryString (buildParams pf period) ≠ endpoint
    ∧ (fetchWithPolling endpoint (buildParams pf period) w).result
      = .ok ⟨b2, mkMetadata hdr2⟩ := by
  have hurl : requestUrl endpoint (buildParams pf period)
      = endpoint ++ "?" ++ buildQueryString (buildParams pf period) := by
    rw [requestUrl, if_neg (buildParams_qs_ne pf period hne)]
  have hfa := fetchAttempt_task_run endpoint (buildParams pf period)
    (w 0).get (w 0).poll body hdr d s2 b2 hdr2 hget htask hpoll hget2
  have hfn : (fetchAttempt endpoint (buildParams pf period) (w 0).get (w 0).poll).result
      = .ok ⟨b2, mkMetadata hdr2⟩ := by rw [hfa]
  have hrun : fetchWithPolling endpoint (buildParams pf period) w
      = retryAux
          (fun k => (fetchAttempt endpoint (buildParams pf period)
            (w k).get (w k).poll).result) 2000 3 0 [] := rfl
  have h := retryAux_ok
    (fun k => (fetchAttempt endpoint (buildParams pf period)
      (w k).get (w k).poll).result) 2000 3 0 [] _ hfn
  refine ⟨?_, append_query_ne endpoint _, ?_⟩
  · rw [hfa, hurl]
  · rw [hrun, h]

/-- Claim C9 witness: `prefer_fresh=true` parameters on the polling path. -/
theorem c9_followup_drops_params_witness :
    (fetchAttempt "/data" (buildParams true .all_time)
      (taskPathWorld 0).get (taskPathWorld 0).poll).urls
      = ["/data?prefer_fresh=true", "/data"]
    ∧ (fetchWithPolling "/data" (buildParams true .all_time) taskPathWorld).result
      = .ok ⟨.str "x", mkMetadata freshHeaders⟩ := by
  have h := c9_followup_drops_params "/data" true .all_time taskPathWorld
    taskBody ⟨none, none⟩ (.str "done") 200 (.str "x") freshHeaders
    (by decide) (by decide) (by decide) (by decide) (by decide)
  exact ⟨h.1, h.2.2⟩

/-- Claim C8 counterexample: a successful response whose `x-data-age` header
is present but empty yields `dataAge = none` (`undefined`), not the
integer-parsed header value (`parseInt("") ` is NaN, still a number), because
the code guards the parse with JavaScript truthiness, not presence. -/
theorem c8_counterexample :
    (fetchWithPolling "/x" [] emptyAgeWorld).result
      = .ok ⟨.str "p", ⟨true, none⟩⟩
    ∧ staleEmptyAgeHeaders.xDataAge = some ""
    ∧ (mkMetadata staleEmptyAgeHeaders).dataAge = none
    ∧ (mkMetadata staleEmptyAgeHeaders).dataAge ≠ some (jsParseInt "") := by
  decide

/-- Claim C8 as amended: for every successfully returned read response, the
metadata has `isStale = true` iff the response's `x-data-stale` header equals
"true", and `dataAge` equal to the integer-parsed `x-data-age` header when
that header is present and non-empty, and `undefined` when the header is
absent or empty; on the direct (non-task) path the metadata is computed from
the served response's own headers. -/
theorem c8_metadata (hdr : HttpHeaders) :
    ((mkMetadata hdr).isStale = true ↔ hdr.xDataStale = some "true")
    ∧ (∀ v, hdr.xDataAge = some v → v ≠ "" →
        (mkMetadata hdr).dataAge = some (jsParseInt v))
    ∧ (hdr.xDataAge = none → (mkMetadata hdr).dataAge = none)
    ∧ (hdr.xDataAge = some "" → (mkMetadata hdr).dataAge = none)
    ∧ (∀ (endpoint : String) (params : List (String × String)) (w : Nat → World)
        (st : Nat) (body : JsBody),
        (w 0).get (requestUrl endpoint params) = .res st body hdr →
        (st = 202 && isTaskResponse body) = false →
        (fetchWithPolling endpoint params w).result = .ok ⟨body, mkMetadata hdr⟩) := by
  refine ⟨?_, ?_, ?_, ?_, ?_⟩
  · simp [mkMetadata]
  · intro v hv hne
    simp [mkMetadata, hv, hne]
  · intro hv
    simp [mkMetadata, hv]
  · intro hv
    simp [mkMetadata, hv]
  · intro endpoint params w st body hget hcond
    have hfa := fetchAttempt_direct_run endpoint params (w 0).get (w 0).poll
      st body hdr hget hcond
    have hfn : (fetchAttempt endpoint params (w 0).get (w 0).poll).result
        = .ok ⟨body, mkMetadata hdr⟩ := by rw [hfa]
    have hrun : fetchWithPolling endpoint params w
        = retryAux (fun k => (fetchAttempt endpoint params (w k).get (w k).poll).result)
            2000 3 0 [] := rfl
    have h := retryAux_ok
      (fun k => (fetchAttempt endpoint params (w k).get (w k).poll).result)
      2000 3 0 [] _ hfn
    rw [hrun, h]

/-- Claim C8 witness: fresh headers (`x-data-stale: false`, `x-data-age: 0`)
on the direct path. -/
theorem c8_metadata_witness :
    (mkMetadata freshHeaders).dataAge = some (JsNum.int 0)
    ∧ (fetchWithPolling "/x" [] direct200World).result
      = .ok ⟨.str "x", mkMetadata freshHeaders⟩ := by
  have h := c8_metadata freshHeaders
  refine ⟨?_, h.2.2.2.2 "/x" [] direct200World 200 (.str "x") rfl (by decide)⟩
  have h2 := h.2.1 "0" rfl (by decide)
  rw [h2]
  decide

theorem processRequests_locked (ids : List String) :
    ∀ (s : CoordState) (t : String), s.lock = some t →
      processRequests ids s = (ids.map (fun _ => t), s) := by
  induction ids with
  | nil => intro s t h; simp [processRequests]
  | cons i rest ih =>
      intro s t h
      have habs : absentRequest i s = (t, s) := by
        simp [absentRequest, h]
      simp [processRequests, habs, ih s t h]

/-- Claim C1 (spec-modelled, backend absent from src/): for any serialization
of N ≥ 1 concurrent cache-miss (ABSENT-path) requests for the same key,
starting from the no-lock initial state, exactly one Task is created (the
serialization winner's), exactly one QueueJob is enqueued, every request
receives a handle to the winning task's id, and the winner's lock is live
afterwards; moreover, while any lock is live, processing any further requests
enqueues no additional QueueJob and hands every one of them the lock owner's
task id. -/
theorem c1_dedup_single_enqueue (first : String) (rest : List String) :
    (processRequests (first :: rest) initialCoordState).2.tasksCreated = [first]
    ∧ (processRequests (first :: rest) initialCoordState).2.jobsEnqueued = 1
    ∧ (processRequests (first :: rest) initialCoordState).1
        = (first :: rest).map (fun _ => first)
    ∧ (processRequests (first :: rest) initialCoordState).2.lock = some first
    ∧ (∀ (ids : List String) (s : CoordState) (t : String), s.lock = some t →
        (processRequests ids s).2.jobsEnqueued = s.jobsEnqueued
        ∧ (processRequests ids s).1 = ids.map (fun _ => t)) := by
  have habs : absentRequest first initialCoordState
      = (first, ⟨some first, [first], 1⟩) := by
    simp [absentRequest, initialCoordState]
  have hlocked := processRequests_locked rest
    (⟨some first, [first], 1⟩ : CoordState) first rfl
  refine ⟨?_, ?_, ?_, ?_, ?_⟩
  · simp [processRequests, habs, hlocked]
  · simp [processRequests, habs, hlocked]
  · simp [processRequests, habs, hlocked]
  · simp [processRequests, habs, hlocked]
  · intro ids s t h
    rw [processRequests_locked ids s t h]
    exact ⟨rfl, rfl⟩

/-- Claim C1 witness: three concurrent requests for one absent key. -/
theorem c1_dedup_single_enqueue_witness :
    (processRequests ["t1", "t2", "t3"] initialCoordState).2.tasksCreated = ["t1"]
    ∧ (processRequests ["t1", "t2", "t3"] initialCoordState).2.jobsEnqueued = 1
    ∧ (processRequests ["t1", "t2", "t3"] initialCoordState).1 = ["t1", "t1", "t1"]
    ∧ (processRequests ["t2", "t3"]
        (⟨some "t1", ["t1"], 1⟩ : CoordState)).2.jobsEnqueued = 1 := by
  have h := c1_dedup_single_enqueue "t1" ["t2", "t3"]
  have h5 := (h.2.2.2.2 ["t2", "t3"] (⟨some "t1", ["t1"], 1⟩ : CoordState) "t1" rfl).1
  exact ⟨h.1, h.2.1, h.2.2.1, h5⟩
